import Mathlib

set_option autoImplicit false

/-!
Shallow embedding of the core of the pixels repository: the Experiment
aggregator (src/pixels/experiment.py) and the Reach action-label extractor
(src/pixels/behaviours/reach.py).

Python exceptions are modelled by the PyError type and fallible code returns
Except PyError.  A pandas DataFrame of behavioural channels is modelled as a
record of optional columns (a missing column models a missing key) together
with a row count.  Numpy arrays are lists; numpy integer values are Nat or
Int; raw analog samples are rationals.  External functions of other packages
(signal.binarise, ioutils.get_sessions, filesystem access) are parameters of
the embedded functions.
-/

/-- Python exception kinds raised by the embedded code.  pixelsError is the
domain error of the repository (pixels.error.PixelsError) carrying its
message; the others are builtin Python exceptions. -/
inductive PyError where
  | pixelsError : String → PyError
  | keyError : PyError
  | attributeError : PyError
  | indexError : PyError
  | valueError : PyError
  deriving DecidableEq, Repr

namespace ActionLabels

/-- reach.py line 26. -/
def miss_left : Nat := 1 <<< 0

/-- reach.py line 27. -/
def miss_right : Nat := 1 <<< 1

/-- reach.py line 28. -/
def correct_left : Nat := 1 <<< 2

/-- reach.py line 29. -/
def correct_right : Nat := 1 <<< 3

/-- reach.py line 30. -/
def incorrect_left : Nat := 1 <<< 4

/-- reach.py line 31. -/
def incorrect_right : Nat := 1 <<< 5

/-- reach.py line 34. -/
def naive_left_short : Nat := 1 <<< 6

/-- reach.py line 35. -/
def naive_left_long : Nat := 1 <<< 7

/-- reach.py line 36. -/
def naive_right_short : Nat := 1 <<< 8

/-- reach.py line 37. -/
def naive_right_long : Nat := 1 <<< 9

/-- reach.py line 38. -/
def naive_left : Nat := naive_left_short ||| naive_left_long

/-- reach.py line 39. -/
def naive_right : Nat := naive_right_short ||| naive_right_long

/-- reach.py line 40. -/
def naive_short : Nat := naive_left_short ||| naive_right_short

/-- reach.py line 41. -/
def naive_long : Nat := naive_left_long ||| naive_right_long

end ActionLabels

namespace Events

/-- reach.py line 45. -/
def led_on : Nat := 1

/-- reach.py line 46. -/
def led_off : Nat := 2

end Events

/-- The Targets enumeration of the external reach.session package, restricted
to the two values the side map of reach.py covers. -/
inductive Target where
  | LEFT
  | RIGHT
  deriving DecidableEq, Repr

/-- The Outcomes enumeration of the external reach.session package,
restricted to the three values the action map of reach.py covers. -/
inductive Outcome where
  | MISSED
  | CORRECT
  | INCORRECT
  deriving DecidableEq, Repr

/-- The side map of reach.py lines 50 to 53, keyed by target. -/
def side_map : Target → String
  | Target.LEFT => "left"
  | Target.RIGHT => "right"

/-- The action map of reach.py lines 55 to 59, keyed by outcome. -/
def action_map : Outcome → String
  | Outcome.MISSED => "miss"
  | Outcome.CORRECT => "correct"
  | Outcome.INCORRECT => "incorrect"

/-- Dynamic attribute lookup getattr on the ActionLabels class restricted to
the attribute names reachable from the two maps; none models the
AttributeError that getattr raises for an unknown name. -/
def actionLabelAttr : String → Option Nat
  | "miss_left" => some ActionLabels.miss_left
  | "miss_right" => some ActionLabels.miss_right
  | "correct_left" => some ActionLabels.correct_left
  | "correct_right" => some ActionLabels.correct_right
  | "incorrect_left" => some ActionLabels.incorrect_left
  | "incorrect_right" => some ActionLabels.incorrect_right
  | _ => none

/-- The action label that reach.py line 103 selects for a trial from its
outcome and spout side. -/
def actionCode (t : Target) (o : Outcome) : Nat :=
  match o, t with
  | Outcome.MISSED, Target.LEFT => ActionLabels.miss_left
  | Outcome.MISSED, Target.RIGHT => ActionLabels.miss_right
  | Outcome.CORRECT, Target.LEFT => ActionLabels.correct_left
  | Outcome.CORRECT, Target.RIGHT => ActionLabels.correct_right
  | Outcome.INCORRECT, Target.LEFT => ActionLabels.incorrect_left
  | Outcome.INCORRECT, Target.RIGHT => ActionLabels.incorrect_right

/-- One record of the trials list in the session metadata JSON: spout side,
outcome and cue duration. -/
structure Trial where
  spout : Target
  outcome : Outcome
  cue_duration : Int
  deriving DecidableEq, Repr

/-- The default trial value used for out-of-range list reads in statements;
never reached at in-range indices. -/
def trialDefault : Trial := { spout := Target.LEFT, outcome := Outcome.MISSED, cue_duration := 0 }

/-- A behavioural DataFrame: the three channels the routine touches (the
columns keyed ReachLEDs/0, NpxlSync_Signal/0 and Back_Sensor/0), each
possibly absent, plus the number of rows of the frame. -/
structure BehaviouralData (α : Type) where
  reachLEDs : Option (List α)
  npxlSync : Option (List α)
  backSensor : Option (List α)
  nrows : Nat
  deriving DecidableEq, Repr

/-- The minimum of a pandas Series: none for an empty column (pandas yields
NaN there, and NaN compares false against every threshold). -/
def listMin : List ℚ → Option ℚ
  | [] => none
  | x :: xs =>
    match listMin xs with
    | none => some x
    | some m => some (min x m)

/-- reach.py lines 65 to 68: if the minimum of the ReachLEDs/0 column is
below -2, replace that column by itself plus 0.5 times the NpxlSync_Signal/0
column, sample-wise.  Reading a missing column raises KeyError. -/
def corrected_table (bd : BehaviouralData ℚ) : Except PyError (BehaviouralData ℚ) :=
  match bd.reachLEDs with
  | none => Except.error PyError.keyError
  | some leds =>
    if (listMin leds).any (fun m => decide (m < -2)) then
      match bd.npxlSync with
      | none => Except.error PyError.keyError
      | some sync =>
        Except.ok { bd with reachLEDs := some (List.zipWith (fun a b => a + (1 / 2 : ℚ) * b) leds sync) }
    else
      Except.ok bd

/-- reach.py line 70: the external signal.binarise applied to the whole
DataFrame, thresholding every column into a 0/1 series and keeping the row
count (spec section 2).  The threshold function is a parameter. -/
def binariseTable (binarise : List ℚ → List Nat) (bd : BehaviouralData ℚ) : BehaviouralData Nat :=
  { reachLEDs := bd.reachLEDs.map binarise
    npxlSync := bd.npxlSync.map binarise
    backSensor := bd.backSensor.map binarise
    nrows := bd.nrows }

/-- reach.py line 79: np.where of cue before-last equals 0 and cue shifted
equals 1, i.e. the indices one sample before the LED turns on. -/
def led_onsets (cue : List Nat) : List Nat :=
  (List.range (cue.length - 1)).filter
    (fun i => cue.getD i 0 == 0 && cue.getD (i + 1) 0 == 1)

/-- reach.py line 80: the indices one sample before the LED turns off. -/
def led_offsets (cue : List Nat) : List Nat :=
  (List.range (cue.length - 1)).filter
    (fun i => cue.getD i 0 == 1 && cue.getD (i + 1) 0 == 0)

/-- Numpy fancy assignment a at a list of indices set to one value, as used
on lines 81 and 82 of reach.py. -/
def setAll {α : Type} (xs : List α) (idxs : List Nat) (v : α) : List α :=
  idxs.foldl (fun acc i => acc.set i v) xs

/-- One insertion step of a stable insertion sort of indices ordered by the
values they point at in xs. -/
def insertIdx (xs : List Int) (i : Nat) : List Nat → List Nat
  | [] => [i]
  | j :: rest =>
    if xs.getD i 0 < xs.getD j 0 || (xs.getD i 0 == xs.getD j 0 && i < j) then
      i :: j :: rest
    else
      j :: insertIdx xs i rest

/-- Model of np.argsort: the permutation of the indices 0 to n - 1 that
sorts xs, ties resolved by index order (a deterministic rendering of the
numpy sort). -/
def argsort (xs : List Int) : List Nat :=
  (List.range xs.length).foldr (insertIdx xs) []

/-- Numpy elementwise subtraction with the shape broadcasting numpy applies
to one-element arrays; other mismatched shapes raise ValueError.  Used for
led_offsets minus led_onsets on line 91 of reach.py. -/
def npSub (a b : List Int) : Except PyError (List Int) :=
  if a.length = b.length then
    Except.ok (List.zipWith (fun x y => x - y) a b)
  else if a.length = 1 then
    Except.ok (b.map (fun y => a.getD 0 0 - y))
  else if b.length = 1 then
    Except.ok (a.map (fun x => x - b.getD 0 0))
  else
    Except.error PyError.valueError

/-- reach.py lines 100 to 103: for each trial in metadata order, look up the
ActionLabels attribute named by the outcome and side maps and write it at
the next onset index.  Running out of onset indices is an IndexError on the
led_onsets array; an unknown attribute name an AttributeError. -/
def assignActions : List Nat → List Nat → List Trial → Except PyError (List Nat)
  | col0, _, [] => Except.ok col0
  | _, [], _ :: _ => Except.error PyError.indexError
  | col0, o :: os, t :: ts =>
    match actionLabelAttr (action_map t.outcome ++ "_" ++ side_map t.spout) with
    | some code => assignActions (col0.set o code) os ts
    | none => Except.error PyError.attributeError

/-- reach.py lines 73 to 77: read the binarised ReachLEDs/0 column, falling
back to the Back_Sensor/0 column on KeyError; if both are missing the
KeyError propagates. -/
def cueOrErr (bbd : BehaviouralData Nat) : Except PyError (List Nat) :=
  match bbd.reachLEDs with
  | some v => Except.ok v
  | none =>
    match bbd.backSensor with
    | some v => Except.ok v
    | none => Except.error PyError.keyError

/-- reach.py lines 71 to 103 applied to the binarised table: allocate the
two-column zero array sized by the row count, read the cue channel, detect
edges, write the event codes into column 1 (an out-of-range index raises
IndexError as in numpy), run the two QA checks (trial count, cue-duration
rank order) and write the per-trial action codes into column 0. -/
def labels_from_binarised (bbd : BehaviouralData Nat) (md : List Trial) :
    Except PyError (List Nat × List Nat) :=
  let col0 : List Nat := List.replicate bbd.nrows 0
  let col1 : List Nat := List.replicate bbd.nrows 0
  match cueOrErr bbd with
  | Except.error e => Except.error e
  | Except.ok cue_leds =>
    let onsets := led_onsets cue_leds
    let offsets := led_offsets cue_leds
    if onsets.any (fun i => decide (bbd.nrows ≤ i)) || offsets.any (fun i => decide (bbd.nrows ≤ i)) then
      Except.error PyError.indexError
    else
      let col1b := setAll (setAll col1 onsets Events.led_on) offsets Events.led_off
      if onsets.length ≠ md.length then
        Except.error (PyError.pixelsError "different no. of trials")
      else
        match npSub (offsets.map Int.ofNat) (onsets.map Int.ofNat) with
        | Except.error e => Except.error e
        | Except.ok cue_durations_tdms =>
          if argsort cue_durations_tdms ≠ argsort (md.map (fun t => t.cue_duration)) then
            Except.error (PyError.pixelsError "mismatching trial data")
          else
            match assignActions col0 onsets md with
            | Except.error e => Except.error e
            | Except.ok col0f => Except.ok (col0f, col1b)

/-- Reach._extract_action_labels (reach.py lines 64 to 116), plot false:
conditionally correct the LED channel, binarise the whole table with the
external signal.binarise given as a parameter, then extract the label array
from the binarised table. -/
def extract_action_labels (binarise : List ℚ → List Nat) (bd : BehaviouralData ℚ)
    (md : List Trial) : Except PyError (List Nat × List Nat) :=
  match corrected_table bd with
  | Except.error e => Except.error e
  | Except.ok bd1 => labels_from_binarised (binariseTable binarise bd1) md

/-- The record ioutils.get_sessions yields per discovered session
(experiment.py lines 60 to 67): name, metadata and data directory. -/
structure SessionInfo (M : Type) where
  name : String
  metadata : M
  data_dir : String

/-- The attributes Experiment.__init__ records (experiment.py lines 36 to
67): the argument list, the resolved directories and the per-session
behaviour objects in discovery order. -/
structure Experiment (S : Type) where
  mouse_ids : List String
  data_dir : String
  meta_dir : Option String
  raw : String
  processed : String
  interim : String
  sessions : List S

/-- Experiment.__init__ (experiment.py lines 36 to 67).  Filesystem lookups
and session discovery (ioutils.get_sessions) are external and passed as
parameters; mkSession models calling the behaviour class on one discovery
record.  A directory whose existence check fails raises PixelsError.  The
Python truthiness test on meta_dir treats an empty string like None.  The
isinstance normalisation of mouse_ids is identity here since the embedding
is typed. -/
def experimentInit {M S : Type} (exists_ : String → Bool) (expanduser : String → String)
    (get_sessions : List String → String → Option String → List (SessionInfo M))
    (mkSession : SessionInfo M → S) (mouse_ids : List String) (data_dir : String)
    (meta_dir : Option String) : Except PyError (Experiment S) :=
  let dd := expanduser data_dir
  if !exists_ dd then
    Except.error (PyError.pixelsError "Directory not found")
  else
    match
      match meta_dir with
      | some m =>
        if m ≠ "" then
          let mm := expanduser m
          if !exists_ mm then Except.error (PyError.pixelsError "Directory not found")
          else Except.ok (some mm)
        else Except.ok (none : Option String)
      | none => Except.ok (none : Option String)
    with
    | Except.error e => Except.error e
    | Except.ok md =>
      Except.ok
        { mouse_ids := mouse_ids
          data_dir := dd
          meta_dir := md
          raw := dd ++ "/raw"
          processed := dd ++ "/processed"
          interim := dd ++ "/interim"
          sessions := (get_sessions mouse_ids dd md).map mkSession }

/-- Experiment.__len__ (experiment.py lines 75 to 79): the number of
sessions. -/
def Experiment.len {S : Type} (e : Experiment S) : Nat := e.sessions.length

/-- Experiment.__getitem__ (experiment.py lines 69 to 73): direct indexing
of the sessions list; none models the IndexError Python raises out of
range. -/
def Experiment.getitem {S : Type} (e : Experiment S) (i : Nat) : Option S :=
  e.sessions.get? i

/-- pd.concat of a list of tables with keys range(len(tables)): labels each
table with its position, forming a new outer index level.  Concatenating an
empty list raises ValueError in pandas. -/
def pd_concat_keys {R : Type} (tables : List R) : Except PyError (List (Nat × R)) :=
  if tables.length = 0 then Except.error PyError.valueError
  else Except.ok tables.enum

/-- The align_trials loop body when a truthy units list is given
(experiment.py lines 200 to 204): session i is paired with units at index i,
and exhausting the units list raises IndexError. -/
def alignLoop {S U R : Type} (fu : S → U → R) : List S → List U → Except PyError (List R)
  | [], _ => Except.ok []
  | _ :: _, [] => Except.error PyError.indexError
  | s :: ss, u :: us =>
    match alignLoop fu ss us with
    | Except.error e => Except.error e
    | Except.ok rest => Except.ok (fu s u :: rest)

/-- Experiment.align_trials (experiment.py lines 194 to 212): call the
per-session align_trials on every session in order, with the per-session
units element when a truthy units list is given, and concatenate the
collected tables with session position keys.  The per-session calls are the
parameters f and fu. -/
def Experiment.align_trials {S U R : Type} (e : Experiment S) (f : S → R)
    (units : Option (List U)) (fu : S → U → R) : Except PyError (List (Nat × R)) :=
  match
    match units with
    | some us =>
      if us.length ≠ 0 then alignLoop fu e.sessions us
      else Except.ok (e.sessions.map f)
    | none => Except.ok (e.sessions.map f)
  with
  | Except.error e1 => Except.error e1
  | Except.ok trials => pd_concat_keys trials

/-- Attribute access self.sessons, as written on lines 227, 246 and 266 of
experiment.py: the Experiment class never defines an attribute of that name
(the list is called sessions), so the lookup raises AttributeError. -/
def Experiment.sessons {S : Type} (_e : Experiment S) : Except PyError (List S) :=
  Except.error PyError.attributeError

/-- Experiment.get_spike_widths (experiment.py lines 221 to 238): initialise
an empty widths list, iterate self.sessons calling the per-session method
without collecting the result, then concatenate the still-empty widths
list. -/
def Experiment.get_spike_widths {S R : Type} (e : Experiment S) (f : S → R) :
    Except PyError (List (Nat × R)) :=
  let widths : List R := []
  match e.sessons with
  | Except.error e1 => Except.error e1
  | Except.ok ss =>
    let _ := ss.map f
    pd_concat_keys widths

/-- Experiment.get_spike_waveforms (experiment.py lines 240 to 257): same
shape as get_spike_widths, iterating self.sessons and never collecting. -/
def Experiment.get_spike_waveforms {S R : Type} (e : Experiment S) (f : S → R) :
    Except PyError (List (Nat × R)) :=
  let waveforms : List R := []
  match e.sessons with
  | Except.error e1 => Except.error e1
  | Except.ok ss =>
    let _ := ss.map f
    pd_concat_keys waveforms

/-- Experiment.get_aligned_spike_rate_CI (experiment.py lines 259 to 277):
same shape as get_spike_widths, iterating self.sessons and never
collecting. -/
def Experiment.get_aligned_spike_rate_CI {S R : Type} (e : Experiment S) (f : S → R) :
    Except PyError (List (Nat × R)) :=
  let CIs : List R := []
  match e.sessons with
  | Except.error e1 => Except.error e1
  | Except.ok ss =>
    let _ := ss.map f
    pd_concat_keys CIs

/-! ### Helper lemmas about list updates, edge detection and the assignment
loop, used to characterise the extractor. -/

theorem getD_set_eq {α : Type} (xs : List α) (i : Nat) (v d : α) (h : i < xs.length) :
    (xs.set i v).getD i d = v := by
  simp [List.getD_eq_getElem?_getD, List.getElem?_set_self h]

theorem getD_set_ne {α : Type} (xs : List α) (i j : Nat) (v d : α) (h : i ≠ j) :
    (xs.set i v).getD j d = xs.getD j d := by
  simp [List.getD_eq_getElem?_getD, List.getElem?_set_ne h]

theorem getD_replicate_zero (n j : Nat) : (List.replicate n (0 : Nat)).getD j 0 = 0 := by
  simp only [List.getD_eq_getElem?_getD, List.getElem?_replicate]
  split <;> rfl

theorem setAll_cons {α : Type} (xs : List α) (i : Nat) (rest : List Nat) (v : α) :
    setAll xs (i :: rest) v = setAll (xs.set i v) rest v := rfl

theorem setAll_length {α : Type} (idxs : List Nat) (xs : List α) (v : α) :
    (setAll xs idxs v).length = xs.length := by
  induction idxs generalizing xs with
  | nil => rfl
  | cons i rest ih => rw [setAll_cons, ih, List.length_set]

theorem setAll_getD_not_mem {α : Type} (idxs : List Nat) (xs : List α) (v d : α) (j : Nat)
    (hj : j ∉ idxs) : (setAll xs idxs v).getD j d = xs.getD j d := by
  induction idxs generalizing xs with
  | nil => rfl
  | cons i rest ih =>
    rw [setAll_cons, ih _ (fun h => hj (List.mem_cons_of_mem _ h)),
      getD_set_ne _ _ _ _ _ (fun h => hj (by rw [← h]; exact List.mem_cons_self _ _))]

theorem setAll_getD_mem {α : Type} (idxs : List Nat) (xs : List α) (v d : α) (j : Nat)
    (hj : j ∈ idxs) (hb : j < xs.length) : (setAll xs idxs v).getD j d = v := by
  induction idxs generalizing xs with
  | nil => cases hj
  | cons i rest ih =>
    rw [setAll_cons]
    by_cases hr : j ∈ rest
    · exact ih _ hr (by simpa using hb)
    · have hji : j = i := by
        rcases List.mem_cons.mp hj with h | h
        · exact h
        · exact absurd h hr
      rw [setAll_getD_not_mem rest _ v d j hr]
      subst hji
      exact getD_set_eq xs j v d hb

theorem mem_led_onsets {cue : List Nat} {i : Nat} :
    i ∈ led_onsets cue ↔ i < cue.length - 1 ∧ cue.getD i 0 = 0 ∧ cue.getD (i + 1) 0 = 1 := by
  simp [led_onsets, List.mem_filter, List.mem_range, Bool.and_eq_true, beq_iff_eq, and_assoc]

theorem mem_led_offsets {cue : List Nat} {i : Nat} :
    i ∈ led_offsets cue ↔ i < cue.length - 1 ∧ cue.getD i 0 = 1 ∧ cue.getD (i + 1) 0 = 0 := by
  simp [led_offsets, List.mem_filter, List.mem_range, Bool.and_eq_true, beq_iff_eq, and_assoc]

theorem led_onsets_nodup (cue : List Nat) : (led_onsets cue).Nodup :=
  List.Nodup.filter _ (List.nodup_range _)

theorem led_onsets_lt (cue : List Nat) {i : Nat} (h : i ∈ led_onsets cue) :
    i < cue.length - 1 := (mem_led_onsets.mp h).1

theorem led_offsets_lt (cue : List Nat) {i : Nat} (h : i ∈ led_offsets cue) :
    i < cue.length - 1 := (mem_led_offsets.mp h).1

theorem led_onsets_not_offset (cue : List Nat) {i : Nat} (h : i ∈ led_onsets cue) :
    i ∉ led_offsets cue := by
  intro h2
  have h1 := (mem_led_onsets.mp h).2.1
  have h3 := (mem_led_offsets.mp h2).2.1
  rw [h1] at h3
  exact absurd h3 (by decide)

theorem insertIdx_length (xs : List Int) (i : Nat) (l : List Nat) :
    (insertIdx xs i l).length = l.length + 1 := by
  induction l with
  | nil => rfl
  | cons j rest ih =>
    rw [insertIdx]
    split
    · simp
    · simp [ih]

theorem argsort_length (xs : List Int) : (argsort xs).length = xs.length := by
  have h : ∀ l : List Nat, (l.foldr (insertIdx xs) []).length = l.length := by
    intro l
    induction l with
    | nil => rfl
    | cons a t ih => simp [insertIdx_length, ih]
  simpa [argsort] using h (List.range xs.length)

theorem actionLabelAttr_eq (t : Trial) :
    actionLabelAttr (action_map t.outcome ++ "_" ++ side_map t.spout) =
      some (actionCode t.spout t.outcome) := by
  obtain ⟨s, o, d⟩ := t
  cases s <;> cases o <;> rfl

theorem actionCode_ne_zero (s : Target) (o : Outcome) : actionCode s o ≠ 0 := by
  cases s <;> cases o <;> decide

theorem assignActions_not_pixels (ts : List Trial) (col0 os : List Nat) (msg : String) :
    assignActions col0 os ts ≠ Except.error (PyError.pixelsError msg) := by
  induction ts generalizing col0 os with
  | nil => simp [assignActions]
  | cons t rest ih =>
    cases os with
    | nil => simp [assignActions]
    | cons o os2 =>
      simp only [assignActions, actionLabelAttr_eq]
      exact ih _ _

theorem assignActions_isOk (ts : List Trial) (col0 os : List Nat) (h : ts.length ≤ os.length) :
    ∃ res, assignActions col0 os ts = Except.ok res := by
  induction ts generalizing col0 os with
  | nil => cases os <;> exact ⟨col0, rfl⟩
  | cons t rest ih =>
    cases os with
    | nil => simp at h
    | cons o os2 =>
      simp only [assignActions, actionLabelAttr_eq]
      exact ih _ _ (by simpa using h)

theorem assignActions_length (ts : List Trial) (col0 os res : List Nat)
    (h : assignActions col0 os ts = Except.ok res) : res.length = col0.length := by
  induction ts generalizing col0 os with
  | nil =>
    cases os <;> (simp only [assignActions, Except.ok.injEq] at h; rw [← h])
  | cons t rest ih =>
    cases os with
    | nil => simp [assignActions] at h
    | cons o os2 =>
      simp only [assignActions, actionLabelAttr_eq] at h
      rw [ih _ _ h, List.length_set]

theorem assignActions_getD_not_mem (ts : List Trial) (col0 os res : List Nat)
    (h : assignActions col0 os ts = Except.ok res) (j : Nat) (hj : j ∉ os) :
    res.getD j 0 = col0.getD j 0 := by
  induction ts generalizing col0 os with
  | nil =>
    cases os <;> (simp only [assignActions, Except.ok.injEq] at h; rw [← h])
  | cons t rest ih =>
    cases os with
    | nil => simp [assignActions] at h
    | cons o os2 =>
      simp only [assignActions, actionLabelAttr_eq] at h
      rw [ih _ _ h (fun hm => hj (List.mem_cons_of_mem _ hm)),
        getD_set_ne _ _ _ _ _ (fun he => hj (by rw [← he]; exact List.mem_cons_self _ _))]

theorem assignActions_getD_at (ts : List Trial) (col0 os res : List Nat)
    (h : assignActions col0 os ts = Except.ok res) (hnd : os.Nodup) (i : Nat)
    (hits : i < ts.length) (hios : i < os.length) (hb : os.getD i 0 < col0.length) :
    res.getD (os.getD i 0) 0 =
      actionCode (ts.getD i trialDefault).spout (ts.getD i trialDefault).outcome := by
  induction ts generalizing col0 os i with
  | nil => simp at hits
  | cons t rest ih =>
    cases os with
    | nil => simp at hios
    | cons o os2 =>
      simp only [assignActions, actionLabelAttr_eq] at h
      cases i with
      | zero =>
        have ho : o ∉ os2 := (List.nodup_cons.mp hnd).1
        simp only [List.getD_cons_zero] at hb ⊢
        rw [assignActions_getD_not_mem _ _ _ _ h o ho, getD_set_eq _ _ _ _ hb]
      | succ k =>
        simp only [List.getD_cons_succ] at hb ⊢
        exact ih _ _ h (List.nodup_cons.mp hnd).2 k (by simpa using hits)
          (by simpa using hios) (by simpa using hb)

theorem edges_guard_false (cue : List Nat) (n : Nat) (hlen : cue.length = n) :
    ((led_onsets cue).any (fun i => decide (n ≤ i)) ||
      (led_offsets cue).any (fun i => decide (n ≤ i))) = false := by
  simp only [Bool.or_eq_false_iff, List.any_eq_false, decide_eq_true_eq]
  constructor
  · intro i hi
    have h := led_onsets_lt cue hi
    omega
  · intro i hi
    have h := led_offsets_lt cue hi
    omega

theorem npSub_eq_of_length (a b : List Int) (h : a.length = b.length) :
    npSub a b = Except.ok (List.zipWith (fun x y => x - y) a b) := by
  simp [npSub, h]

theorem labels_from_binarised_eq (cue : List Nat) (n : Nat) (sync back : Option (List Nat))
    (md : List Trial) (hlen : cue.length = n) :
    labels_from_binarised { reachLEDs := some cue, npxlSync := sync, backSensor := back, nrows := n } md =
      (if (led_onsets cue).length ≠ md.length then
        Except.error (PyError.pixelsError "different no. of trials")
      else
        match npSub ((led_offsets cue).map Int.ofNat) ((led_onsets cue).map Int.ofNat) with
        | Except.error e => Except.error e
        | Except.ok tdms =>
          if argsort tdms ≠ argsort (md.map (fun t => t.cue_duration)) then
            Except.error (PyError.pixelsError "mismatching trial data")
          else
            match assignActions (List.replicate n 0) (led_onsets cue) md with
            | Except.error e => Except.error e
            | Except.ok col0f =>
              Except.ok (col0f,
                setAll (setAll (List.replicate n 0) (led_onsets cue) Events.led_on)
                  (led_offsets cue) Events.led_off)) := by
  simp only [labels_from_binarised, cueOrErr]
  rw [edges_guard_false cue n hlen]
  simp only [Bool.false_eq_true, if_false]

theorem getD_eq_of_getElem? {α : Type} {l : List α} {i : Nat} {a : α} (d : α)
    (h : l[i]? = some a) : l.getD i d = a := by
  rw [List.getD_eq_getElem?_getD, h]
  rfl

theorem getD_mem {α : Type} {l : List α} {i : Nat} (d : α) (h : i < l.length) :
    l.getD i d ∈ l := by
  rw [List.getD_eq_getElem?_getD, List.getElem?_eq_getElem h]
  exact List.getElem_mem h

theorem getD_zipWith {α β γ : Type} (f : α → β → γ) (a : List α) (b : List β) (j : Nat)
    (da : α) (db : β) (dc : γ) (hja : j < a.length) (hjb : j < b.length) :
    (List.zipWith f a b).getD j dc = f (a.getD j da) (b.getD j db) := by
  induction a generalizing b j with
  | nil => simp at hja
  | cons x xs ih =>
    cases b with
    | nil => simp at hjb
    | cons y ys =>
      cases j with
      | zero => rfl
      | succ k => simpa using ih ys k (by simpa using hja) (by simpa using hjb)

theorem npSub_error (a b : List Int) (e : PyError) (h : npSub a b = Except.error e) :
    e = PyError.valueError := by
  unfold npSub at h
  split at h
  · cases h
  · split at h
    · cases h
    · split at h
      · cases h
      · simp only [Except.error.injEq] at h
        exact h.symm

/-- C8: the ActionLabels and Events constants are bit-stable with the
documented values, the four naive composites being the bitwise ORs of their
pairs. -/
theorem C8_constants :
    ActionLabels.miss_left = 1 ∧ ActionLabels.miss_right = 2 ∧
    ActionLabels.correct_left = 4 ∧ ActionLabels.correct_right = 8 ∧
    ActionLabels.incorrect_left = 16 ∧ ActionLabels.incorrect_right = 32 ∧
    ActionLabels.naive_left_short = 64 ∧ ActionLabels.naive_left_long = 128 ∧
    ActionLabels.naive_right_short = 256 ∧ ActionLabels.naive_right_long = 512 ∧
    ActionLabels.naive_left = (ActionLabels.naive_left_short ||| ActionLabels.naive_left_long) ∧
    ActionLabels.naive_right = (ActionLabels.naive_right_short ||| ActionLabels.naive_right_long) ∧
    ActionLabels.naive_short = (ActionLabels.naive_left_short ||| ActionLabels.naive_right_short) ∧
    ActionLabels.naive_long = (ActionLabels.naive_left_long ||| ActionLabels.naive_right_long) ∧
    Events.led_on = 1 ∧ Events.led_off = 2 := by
  decide

/-- C4: for a raw table with both channels present and of equal length, if
the minimum of the LED channel is below -2 then the corrected table passed
on to binarisation carries the LED channel plus 0.5 times the sync channel
sample-wise, and otherwise the table is passed on unchanged. -/
theorem C4_corruption_correction (bd : BehaviouralData ℚ) (leds sync : List ℚ)
    (hled : bd.reachLEDs = some leds) (hsync : bd.npxlSync = some sync)
    (hlen : sync.length = leds.length) :
    (∀ m, listMin leds = some m → m < -2 →
      ∃ leds2, corrected_table bd = Except.ok { bd with reachLEDs := some leds2 } ∧
        leds2.length = leds.length ∧
        ∀ j, j < leds.length →
          leds2.getD j 0 = leds.getD j 0 + (1 / 2 : ℚ) * sync.getD j 0) ∧
    ((∀ m, listMin leds = some m → -2 ≤ m) → corrected_table bd = Except.ok bd) := by
  constructor
  · intro m hm hlt
    refine ⟨List.zipWith (fun a b => a + (1 / 2 : ℚ) * b) leds sync, ?_, ?_, ?_⟩
    · simp [corrected_table, hled, hsync, hm, Option.any, hlt]
    · rw [List.length_zipWith, hlen, Nat.min_self]
    · intro j hj
      exact getD_zipWith _ _ _ _ _ _ _ hj (by omega)
  · intro hge
    have hfalse : (listMin leds).any (fun m => decide (m < -2)) = false := by
      cases h : listMin leds with
      | none => rfl
      | some m =>
        simp only [Option.any, decide_eq_false_iff_not, not_lt]
        exact hge m h
    simp [corrected_table, hled, hfalse]

/-- Witness for C4 at a concrete corrupted one-sample table. -/
theorem C4_corruption_correction_witness :
    ∃ leds2,
      corrected_table { reachLEDs := some [(-3 : ℚ)], npxlSync := some [(4 : ℚ)], backSensor := none, nrows := 1 } =
          Except.ok { reachLEDs := some leds2, npxlSync := some [(4 : ℚ)], backSensor := none, nrows := 1 } ∧
        leds2.length = [(-3 : ℚ)].length ∧
        ∀ j, j < [(-3 : ℚ)].length →
          leds2.getD j 0 = [(-3 : ℚ)].getD j 0 + (1 / 2 : ℚ) * [(4 : ℚ)].getD j 0 :=
  (C4_corruption_correction _ [(-3 : ℚ)] [(4 : ℚ)] rfl rfl rfl).1 (-3) rfl (by norm_num)

/-- C6: a raw table that provides only the alternate Back_Sensor channel
does not succeed: the unconditional corruption-correction read of the LED
channel raises KeyError before the fallback of lines 73 to 77 is reached,
even though that fallback alone (second conjunct, starting from the
binarised table) would extract labels from the alternate channel. -/
theorem C6_fallback_unreachable :
    extract_action_labels (fun xs => xs.map (fun q => if (1 / 2 : ℚ) ≤ q then 1 else 0))
        { reachLEDs := none, npxlSync := none, backSensor := some [0, 1, 0], nrows := 3 }
        [{ spout := Target.LEFT, outcome := Outcome.MISSED, cue_duration := 1 }] =
      Except.error PyError.keyError ∧
    labels_from_binarised { reachLEDs := none, npxlSync := none, backSensor := some [0, 1, 0], nrows := 3 }
        [{ spout := Target.LEFT, outcome := Outcome.MISSED, cue_duration := 1 }] =
      Except.ok ([ActionLabels.miss_left, 0, 0], [Events.led_on, Events.led_off, 0]) :=
  ⟨rfl, rfl⟩

/-- C5: the three spike batch methods raise AttributeError on every call
because they iterate the undefined attribute sessons and never collect the
per-session results, and align_trials raises ValueError on an experiment
with zero sessions; align_trials does return the position-keyed
concatenation on a nonempty experiment. -/
theorem C5_batch_methods_broken :
    Experiment.get_spike_widths
        { mouse_ids := ["M1"], data_dir := "d", meta_dir := none, raw := "d/raw",
          processed := "d/processed", interim := "d/interim", sessions := [10] }
        (fun s : Nat => s + 1) = Except.error PyError.attributeError ∧
    Experiment.get_spike_waveforms
        { mouse_ids := ["M1"], data_dir := "d", meta_dir := none, raw := "d/raw",
          processed := "d/processed", interim := "d/interim", sessions := [10] }
        (fun s : Nat => s + 1) = Except.error PyError.attributeError ∧
    Experiment.get_aligned_spike_rate_CI
        { mouse_ids := ["M1"], data_dir := "d", meta_dir := none, raw := "d/raw",
          processed := "d/processed", interim := "d/interim", sessions := [10] }
        (fun s : Nat => s + 1) = Except.error PyError.attributeError ∧
    Experiment.align_trials
        { mouse_ids := ["M1"], data_dir := "d", meta_dir := none, raw := "d/raw",
          processed := "d/processed", interim := "d/interim", sessions := ([] : List Nat) }
        (fun s : Nat => s + 1) (none : Option (List Nat)) (fun s u => s + u) =
      Except.error PyError.valueError ∧
    Experiment.align_trials
        { mouse_ids := ["M1"], data_dir := "d", meta_dir := none, raw := "d/raw",
          processed := "d/processed", interim := "d/interim", sessions := [10, 20] }
        (fun s : Nat => s + 1) (none : Option (List Nat)) (fun s u => s + u) =
      Except.ok [(0, 11), (1, 21)] :=
  ⟨rfl, rfl, rfl, rfl, rfl⟩

/-- C3 refuted as stated: on this input the number of detected rising edges
equals the number of metadata trials, yet the routine still raises a
PixelsError, from the cue-duration rank check, so PixelsError is not raised
only on trial-count mismatches. -/
theorem C3_counterexample :
    labels_from_binarised
        { reachLEDs := some [0, 1, 1, 0, 0, 1, 0], npxlSync := none, backSensor := none, nrows := 7 }
        [{ spout := Target.LEFT, outcome := Outcome.MISSED, cue_duration := 1 },
         { spout := Target.RIGHT, outcome := Outcome.CORRECT, cue_duration := 2 }] =
      Except.error (PyError.pixelsError "mismatching trial data") ∧
    (led_onsets [0, 1, 1, 0, 0, 1, 0]).length =
      ([{ spout := Target.LEFT, outcome := Outcome.MISSED, cue_duration := 1 },
        { spout := Target.RIGHT, outcome := Outcome.CORRECT, cue_duration := 2 }] : List Trial).length :=
  ⟨rfl, rfl⟩

/-- C3 amended: the trial-count PixelsError is raised exactly when the
number of detected rising edges differs from the number of metadata trials;
when the counts match, a PixelsError can still arise from the later
cue-duration rank check, so the count criterion characterises only the
count-check error. -/
theorem C3_count_check (cue : List Nat) (n : Nat) (sync back : Option (List Nat))
    (md : List Trial) (hlen : cue.length = n) :
    (labels_from_binarised { reachLEDs := some cue, npxlSync := sync, backSensor := back, nrows := n } md =
        Except.error (PyError.pixelsError "different no. of trials")) ↔
      (led_onsets cue).length ≠ md.length := by
  rw [labels_from_binarised_eq cue n sync back md hlen]
  by_cases hc : (led_onsets cue).length = md.length
  · rw [if_neg (not_not_intro hc)]
    refine iff_of_false ?_ (not_not_intro hc)
    rcases hnp : npSub ((led_offsets cue).map Int.ofNat) ((led_onsets cue).map Int.ofNat) with e | tdms
    · simp only [hnp]
      intro hcontra
      have he := npSub_error _ _ _ hnp
      subst he
      simp at hcontra
    · simp only [hnp]
      by_cases hr : argsort tdms = argsort (md.map (fun t => t.cue_duration))
      · rw [if_neg (not_not_intro hr)]
        obtain ⟨res, hres⟩ := assignActions_isOk md (List.replicate n 0) (led_onsets cue)
          (le_of_eq hc.symm)
        simp only [hres]
        intro hcontra
        simp at hcontra
      · rw [if_pos hr]
        intro hcontra
        simp only [Except.error.injEq, PyError.pixelsError.injEq] at hcontra
        exact absurd hcontra (by decide)
  · rw [if_pos hc]
    exact iff_of_true rfl hc

/-- Witness for the amended C3 at a concrete count-mismatching input. -/
theorem C3_count_check_witness :
    (labels_from_binarised { reachLEDs := some [0, 1, 0], npxlSync := none, backSensor := none, nrows := 3 }
          ([] : List Trial) =
        Except.error (PyError.pixelsError "different no. of trials")) ↔
      (led_onsets [0, 1, 0]).length ≠ ([] : List Trial).length :=
  C3_count_check [0, 1, 0] 3 none none [] rfl

/-- C2: with the LED channel present, the table well formed and every
detected onset paired with a detected offset, the routine raises a
PixelsError exactly when the rank order of the detected cue durations
(offset index minus onset index per trial) differs from the rank order of
the metadata cue durations; a trial-count mismatch is subsumed because it
forces rank lists of different lengths. -/
theorem C2_rank_check (cue : List Nat) (n : Nat) (sync back : Option (List Nat))
    (md : List Trial) (hlen : cue.length = n)
    (hoff : (led_offsets cue).length = (led_onsets cue).length) :
    (∃ msg, labels_from_binarised { reachLEDs := some cue, npxlSync := sync, backSensor := back, nrows := n } md =
        Except.error (PyError.pixelsError msg)) ↔
      argsort (List.zipWith (fun x y => x - y) ((led_offsets cue).map Int.ofNat)
          ((led_onsets cue).map Int.ofNat)) ≠
        argsort (md.map (fun t => t.cue_duration)) := by
  rw [labels_from_binarised_eq cue n sync back md hlen]
  have hnp := npSub_eq_of_length ((led_offsets cue).map Int.ofNat)
    ((led_onsets cue).map Int.ofNat) (by simp [hoff])
  by_cases hc : (led_onsets cue).length = md.length
  · rw [if_neg (not_not_intro hc)]
    simp only [hnp]
    by_cases hr : argsort (List.zipWith (fun x y => x - y) ((led_offsets cue).map Int.ofNat)
        ((led_onsets cue).map Int.ofNat)) = argsort (md.map (fun t => t.cue_duration))
    · rw [if_neg (not_not_intro hr)]
      obtain ⟨res, hres⟩ := assignActions_isOk md (List.replicate n 0) (led_onsets cue)
        (le_of_eq hc.symm)
      simp only [hres]
      refine iff_of_false ?_ (not_not_intro hr)
      rintro ⟨msg, hmsg⟩
      simp at hmsg
    · rw [if_pos hr]
      exact iff_of_true ⟨"mismatching trial data", rfl⟩ hr
  · rw [if_pos hc]
    refine iff_of_true ⟨"different no. of trials", rfl⟩ ?_
    intro he
    apply hc
    have h1 := congrArg List.length he
    rw [argsort_length, argsort_length, List.length_zipWith, List.length_map, List.length_map,
      List.length_map, hoff, Nat.min_self] at h1
    exact h1

/-- Witness for C2 at a concrete input whose rank lists differ in length. -/
theorem C2_rank_check_witness :
    (∃ msg, labels_from_binarised
          { reachLEDs := some [0, 1, 0, 0, 1, 0], npxlSync := none, backSensor := none, nrows := 6 }
          [{ spout := Target.LEFT, outcome := Outcome.MISSED, cue_duration := 1 }] =
        Except.error (PyError.pixelsError msg)) ↔
      argsort (List.zipWith (fun x y => x - y) ((led_offsets [0, 1, 0, 0, 1, 0]).map Int.ofNat)
          ((led_onsets [0, 1, 0, 0, 1, 0]).map Int.ofNat)) ≠
        argsort (([{ spout := Target.LEFT, outcome := Outcome.MISSED, cue_duration := 1 }] : List Trial).map
          (fun t => t.cue_duration)) :=
  C2_rank_check [0, 1, 0, 0, 1, 0] 6 none none
    [{ spout := Target.LEFT, outcome := Outcome.MISSED, cue_duration := 1 }] rfl rfl

/-- C1: for a binarised trace whose detected onsets match the metadata
trials in count and cue-duration rank order, the extractor succeeds and
column 0 is nonzero exactly at the detected onset indices, the entry for
trial i being the action label selected by the spout side and outcome of
trial i. -/
theorem C1_action_labels (cue : List Nat) (n : Nat) (sync back : Option (List Nat))
    (md : List Trial) (hlen : cue.length = n)
    (hcount : (led_onsets cue).length = md.length)
    (hoff : (led_offsets cue).length = (led_onsets cue).length)
    (hrank : argsort (List.zipWith (fun x y => x - y) ((led_offsets cue).map Int.ofNat)
        ((led_onsets cue).map Int.ofNat)) = argsort (md.map (fun t => t.cue_duration))) :
    ∃ col0 col1,
      labels_from_binarised { reachLEDs := some cue, npxlSync := sync, backSensor := back, nrows := n } md =
        Except.ok (col0, col1) ∧
      col0.length = n ∧
      (∀ j, j < n → (col0.getD j 0 ≠ 0 ↔ j ∈ led_onsets cue)) ∧
      (∀ i, i < md.length →
        col0.getD ((led_onsets cue).getD i 0) 0 =
          actionCode (md.getD i trialDefault).spout (md.getD i trialDefault).outcome) := by
  obtain ⟨res, hres⟩ := assignActions_isOk md (List.replicate n 0) (led_onsets cue)
    (le_of_eq hcount.symm)
  have hnp := npSub_eq_of_length ((led_offsets cue).map Int.ofNat)
    ((led_onsets cue).map Int.ofNat) (by simp [hoff])
  have hmemlt : ∀ j, j ∈ led_onsets cue → j < n := by
    intro j hj
    have := led_onsets_lt cue hj
    omega
  have hat : ∀ i, i < md.length →
      res.getD ((led_onsets cue).getD i 0) 0 =
        actionCode (md.getD i trialDefault).spout (md.getD i trialDefault).outcome := by
    intro i hi
    have hio : i < (led_onsets cue).length := by omega
    refine assignActions_getD_at md _ _ res hres (led_onsets_nodup cue) i hi hio ?_
    rw [List.length_replicate]
    exact hmemlt _ (getD_mem 0 hio)
  refine ⟨res, setAll (setAll (List.replicate n 0) (led_onsets cue) Events.led_on)
      (led_offsets cue) Events.led_off, ?_, ?_, ?_, hat⟩
  · rw [labels_from_binarised_eq cue n sync back md hlen, if_neg (not_not_intro hcount)]
    simp only [hnp]
    rw [if_neg (not_not_intro hrank)]
    simp only [hres]
  · rw [assignActions_length md _ _ res hres, List.length_replicate]
  · intro j hj
    constructor
    · intro hne
      by_contra hmem
      exact hne (by rw [assignActions_getD_not_mem md _ _ res hres j hmem, getD_replicate_zero])
    · intro hmem
      rcases List.mem_iff_getElem?.mp hmem with ⟨i, hi⟩
      have hilen : i < (led_onsets cue).length := by
        by_contra hge
        rw [List.getElem?_eq_none (by omega)] at hi
        cases hi
      have hjeq : (led_onsets cue).getD i 0 = j := getD_eq_of_getElem? 0 hi
      have hi2 : i < md.length := by omega
      rw [← hjeq, hat i hi2]
      exact actionCode_ne_zero _ _

/-- Witness for C1 at a concrete one-trial trace. -/
theorem C1_action_labels_witness :
    ∃ col0 col1,
      labels_from_binarised { reachLEDs := some [0, 1, 0], npxlSync := none, backSensor := none, nrows := 3 }
          [{ spout := Target.LEFT, outcome := Outcome.MISSED, cue_duration := 1 }] =
        Except.ok (col0, col1) ∧
      col0.length = 3 ∧
      (∀ j, j < 3 → (col0.getD j 0 ≠ 0 ↔ j ∈ led_onsets [0, 1, 0])) ∧
      (∀ i, i < ([{ spout := Target.LEFT, outcome := Outcome.MISSED, cue_duration := 1 }] : List Trial).length →
        col0.getD ((led_onsets [0, 1, 0]).getD i 0) 0 =
          actionCode
            (([{ spout := Target.LEFT, outcome := Outcome.MISSED, cue_duration := 1 }] : List Trial).getD i trialDefault).spout
            (([{ spout := Target.LEFT, outcome := Outcome.MISSED, cue_duration := 1 }] : List Trial).getD i trialDefault).outcome) :=
  C1_action_labels [0, 1, 0] 3 none none
    [{ spout := Target.LEFT, outcome := Outcome.MISSED, cue_duration := 1 }] rfl rfl rfl rfl

/-- C10: whenever the extractor returns instead of raising, the result has
two columns of exactly one entry per sample of the table, column 1 holds
led_off exactly at detected falling edges, led_on exactly at detected
rising edges and 0 elsewhere, and column 0 is zero away from the onset
indices. -/
theorem C10_result_invariants (bbd : BehaviouralData Nat) (md : List Trial)
    (cue : List Nat) (col0 col1 : List Nat) (hcue : cueOrErr bbd = Except.ok cue)
    (hok : labels_from_binarised bbd md = Except.ok (col0, col1)) :
    col0.length = bbd.nrows ∧ col1.length = bbd.nrows ∧
    (∀ j, j ∉ led_onsets cue → col0.getD j 0 = 0) ∧
    (∀ j, col1.getD j 0 =
      if j ∈ led_offsets cue then Events.led_off
      else if j ∈ led_onsets cue then Events.led_on else 0) := by
  simp only [labels_from_binarised, hcue] at hok
  split at hok
  · exact Except.noConfusion hok
  · rename_i hguard
    rw [Bool.not_eq_true, Bool.or_eq_false_iff, List.any_eq_false, List.any_eq_false] at hguard
    have hgON : ∀ j ∈ led_onsets cue, j < bbd.nrows := by
      intro j hj
      have := hguard.1 j hj
      simp only [decide_eq_true_eq] at this
      omega
    have hgOFF : ∀ j ∈ led_offsets cue, j < bbd.nrows := by
      intro j hj
      have := hguard.2 j hj
      simp only [decide_eq_true_eq] at this
      omega
    split at hok
    · exact Except.noConfusion hok
    · split at hok
      · exact Except.noConfusion hok
      · split at hok
        · exact Except.noConfusion hok
        · split at hok
          · exact Except.noConfusion hok
          · rename_i col0f hassign
            simp only [Except.ok.injEq, Prod.mk.injEq] at hok
            obtain ⟨hc0, hc1⟩ := hok
            subst hc0
            subst hc1
            refine ⟨?_, ?_, ?_, ?_⟩
            · rw [assignActions_length md _ _ _ hassign, List.length_replicate]
            · rw [setAll_length, setAll_length, List.length_replicate]
            · intro j hj
              rw [assignActions_getD_not_mem md _ _ _ hassign j hj, getD_replicate_zero]
            · intro j
              by_cases hoff2 : j ∈ led_offsets cue
              · rw [if_pos hoff2]
                refine setAll_getD_mem _ _ _ _ _ hoff2 ?_
                rw [setAll_length, List.length_replicate]
                exact hgOFF j hoff2
              · rw [if_neg hoff2, setAll_getD_not_mem _ _ _ _ _ hoff2]
                by_cases hon2 : j ∈ led_onsets cue
                · rw [if_pos hon2]
                  refine setAll_getD_mem _ _ _ _ _ hon2 ?_
                  rw [List.length_replicate]
                  exact hgON j hon2
                · rw [if_neg hon2, setAll_getD_not_mem _ _ _ _ _ hon2, getD_replicate_zero]

/-- Witness for C10 at a concrete returning run. -/
theorem C10_result_invariants_witness :
    ([ActionLabels.miss_left, 0, 0] : List Nat).length =
        ({ reachLEDs := some [0, 1, 0], npxlSync := none, backSensor := none, nrows := 3 } : BehaviouralData Nat).nrows ∧
      ([Events.led_on, Events.led_off, 0] : List Nat).length =
        ({ reachLEDs := some [0, 1, 0], npxlSync := none, backSensor := none, nrows := 3 } : BehaviouralData Nat).nrows ∧
      (∀ j, j ∉ led_onsets [0, 1, 0] → ([ActionLabels.miss_left, 0, 0] : List Nat).getD j 0 = 0) ∧
      (∀ j, ([Events.led_on, Events.led_off, 0] : List Nat).getD j 0 =
        if j ∈ led_offsets [0, 1, 0] then Events.led_off
        else if j ∈ led_onsets [0, 1, 0] then Events.led_on else 0) :=
  C10_result_invariants { reachLEDs := some [0, 1, 0], npxlSync := none, backSensor := none, nrows := 3 }
    [{ spout := Target.LEFT, outcome := Outcome.MISSED, cue_duration := 1 }]
    [0, 1, 0] [ActionLabels.miss_left, 0, 0] [Events.led_on, Events.led_off, 0] rfl rfl

/-- C7: whenever construction succeeds, the length of the experiment is the
number of sessions discovery returned and indexing yields the behaviour
object built from the i-th discovery record, in discovery order. -/
theorem C7_len_getitem {M S : Type} (exists_ : String → Bool) (expanduser : String → String)
    (get_sessions : List String → String → Option String → List (SessionInfo M))
    (mkSession : SessionInfo M → S) (mouse_ids : List String) (data_dir : String)
    (meta_dir : Option String) (e : Experiment S)
    (h : experimentInit exists_ expanduser get_sessions mkSession mouse_ids data_dir meta_dir =
      Except.ok e) :
    e.len = (get_sessions mouse_ids (expanduser data_dir) e.meta_dir).length ∧
    ∀ i, i < e.len →
      e.getitem i =
        ((get_sessions mouse_ids (expanduser data_dir) e.meta_dir).get? i).map mkSession := by
  simp only [experimentInit] at h
  split at h
  · exact Except.noConfusion h
  · split at h
    · exact Except.noConfusion h
    · simp only [Except.ok.injEq] at h
      subst h
      constructor
      · simp [Experiment.len]
      · intro i hi
        simp [Experiment.getitem, List.get?_eq_getElem?, List.getElem?_map]

/-- Witness session-discovery function for C7: one fixed session record. -/
def gsW : List String → String → Option String → List (SessionInfo Nat) :=
  fun _ _ _ => [{ name := "s1", metadata := 0, data_dir := "root" }]

/-- Witness behaviour constructor for C7: keep the session name. -/
def mkW : SessionInfo Nat → String := fun si => si.name

/-- The experiment the C7 witness construction returns. -/
def expW : Experiment String :=
  { mouse_ids := ["M1"], data_dir := "root", meta_dir := none, raw := "root/raw",
    processed := "root/processed", interim := "root/interim", sessions := ["s1"] }

/-- Witness for C7 at a concrete one-session discovery. -/
theorem C7_len_getitem_witness :
    expW.len = (gsW ["M1"] ((fun s => s) "root") expW.meta_dir).length ∧
    ∀ i, i < expW.len →
      expW.getitem i = ((gsW ["M1"] ((fun s => s) "root") expW.meta_dir).get? i).map mkW :=
  C7_len_getitem (fun _ => true) (fun s => s) gsW mkW ["M1"] "root" none expW rfl

/-- C9: construction fails with the missing-directory PixelsError when the
data directory does not exist or when a given nonempty metadata directory
does not exist, and otherwise succeeds, recording the resolved data
directory, the resolved metadata directory and the discovered sessions. -/
theorem C9_init_directories {M S : Type} (exists_ : String → Bool) (expanduser : String → String)
    (get_sessions : List String → String → Option String → List (SessionInfo M))
    (mkSession : SessionInfo M → S) (mouse_ids : List String) (data_dir : String)
    (meta_dir : Option String) :
    (exists_ (expanduser data_dir) = false →
      experimentInit exists_ expanduser get_sessions mkSession mouse_ids data_dir meta_dir =
        Except.error (PyError.pixelsError "Directory not found")) ∧
    (∀ m, meta_dir = some m → m ≠ "" → exists_ (expanduser data_dir) = true →
      exists_ (expanduser m) = false →
      experimentInit exists_ expanduser get_sessions mkSession mouse_ids data_dir meta_dir =
        Except.error (PyError.pixelsError "Directory not found")) ∧
    (exists_ (expanduser data_dir) = true → meta_dir = none →
      experimentInit exists_ expanduser get_sessions mkSession mouse_ids data_dir meta_dir =
        Except.ok
          { mouse_ids := mouse_ids
            data_dir := expanduser data_dir
            meta_dir := none
            raw := expanduser data_dir ++ "/raw"
            processed := expanduser data_dir ++ "/processed"
            interim := expanduser data_dir ++ "/interim"
            sessions := (get_sessions mouse_ids (expanduser data_dir) none).map mkSession }) ∧
    (∀ m, meta_dir = some m → m ≠ "" → exists_ (expanduser data_dir) = true →
      exists_ (expanduser m) = true →
      experimentInit exists_ expanduser get_sessions mkSession mouse_ids data_dir meta_dir =
        Except.ok
          { mouse_ids := mouse_ids
            data_dir := expanduser data_dir
            meta_dir := some (expanduser m)
            raw := expanduser data_dir ++ "/raw"
            processed := expanduser data_dir ++ "/processed"
            interim := expanduser data_dir ++ "/interim"
            sessions := (get_sessions mouse_ids (expanduser data_dir) (some (expanduser m))).map mkSession }) := by
  refine ⟨?_, ?_, ?_, ?_⟩
  · intro hdd
    simp [experimentInit, hdd]
  · intro m hm hne hdd hmm
    subst hm
    simp [experimentInit, hdd, hne, hmm]
  · intro hdd hm
    subst hm
    simp [experimentInit, hdd]
  · intro m hm hne hdd hmm
    subst hm
    simp [experimentInit, hdd, hne, hmm]

/-- Witness for C9: a nonexistent data directory aborts construction. -/
theorem C9_init_directories_witness :
    experimentInit (M := Nat) (S := Nat) (fun _ => false) (fun s => s)
        (fun _ _ _ => []) (fun _ => 0) ["M1"] "missing" none =
      Except.error (PyError.pixelsError "Directory not found") :=
  (C9_init_directories (fun _ => false) (fun s => s) (fun _ _ _ => []) (fun _ => 0)
    ["M1"] "missing" none).1 rfl
